import Mathlib

/-!
Shallow embedding of the plagiarism-detection core
(`src/plagiarism_detector.py`, class `PlagiarismDetector`).

Conventions of the embedding:
* Python floats are modelled as rationals (`ℚ`); `NaN` (which arises only
  as `np.mean([])`) is modelled by `Option ℚ` with `none` for `NaN`.
* Python regex character classes are modelled on their ASCII fragment,
  via the code point (`Char.toNat`).
* The two scikit-learn black boxes reached from this file —
  `SVC.predict_proba` and `TfidfVectorizer.fit_transform` followed by
  `cosine_similarity` — are external library calls, not code of this
  repository; they are embedded as oracle functions carried in the
  detector state.  `none` models a raised exception (the call sites wrap
  them in `try/except`).
* Python object state (`self`) is passed explicitly: methods that mutate
  `self` return the new state.
-/

/-- ASCII fragment of Python's regex class `\s` (also the set stripped by
`str.strip()`): space, tab, newline, carriage return, vertical tab, form feed. -/
def isPySpace (c : Char) : Bool :=
  decide (c.toNat = 32 ∨ c.toNat = 9 ∨ c.toNat = 10 ∨ c.toNat = 13 ∨
          c.toNat = 11 ∨ c.toNat = 12)

/-- ASCII fragment of Python's regex class `\w`: letters, digits, underscore. -/
def isWordChar (c : Char) : Bool :=
  decide ((65 ≤ c.toNat ∧ c.toNat ≤ 90) ∨ (97 ≤ c.toNat ∧ c.toNat ≤ 122) ∨
          (48 ≤ c.toNat ∧ c.toNat ≤ 57) ∨ c.toNat = 95)

/-- The punctuation kept by `preprocess_text` and counted by
`extract_features`: the regex class `[.,!?;:]`. -/
def isKeptPunct (c : Char) : Bool :=
  decide (c.toNat = 46 ∨ c.toNat = 44 ∨ c.toNat = 33 ∨ c.toNat = 63 ∨
          c.toNat = 59 ∨ c.toNat = 58)

/-- The sentence-ending punctuation class `[.!?]` used by the
`re.split(r'[.!?]+', text)` call in `extract_features`. -/
def isSentencePunct (c : Char) : Bool :=
  decide (c.toNat = 46 ∨ c.toNat = 33 ∨ c.toNat = 63)

/-- A character survives the deletion step
`re.sub(r'[^\w\s.,!?;:]', '', text)` of `preprocess_text`. -/
def isKeptChar (c : Char) : Bool :=
  isWordChar c || isPySpace c || isKeptPunct c

/-- Python `str.strip()` on a character list. -/
def pyStripList (cs : List Char) : List Char :=
  ((cs.dropWhile isPySpace).reverse.dropWhile isPySpace).reverse

/-- Python `str.strip()`. -/
def pyStrip (s : String) : String :=
  ⟨pyStripList s.data⟩

/-- `re.sub(r'\s+', ' ', ·)`: every maximal run of whitespace becomes one
space.  The flag records whether the previous character was whitespace. -/
def collapseWSAux : Bool → List Char → List Char
  | _, [] => []
  | prevWs, c :: rest =>
    if isPySpace c then
      if prevWs then collapseWSAux true rest
      else ' ' :: collapseWSAux true rest
    else c :: collapseWSAux false rest

/-- `preprocess_text` on character lists: strip, collapse whitespace runs,
delete characters outside `\w`, `\s`, `.,!?;:`, lower-case. -/
def preprocessList (cs : List Char) : List Char :=
  ((collapseWSAux false (pyStripList cs)).filter isKeptChar).map Char.toLower

/-- `PlagiarismDetector.preprocess_text` (src/plagiarism_detector.py
lines 29-40). -/
def preprocess_text (s : String) : String :=
  ⟨preprocessList s.data⟩

/-- Python `str.split()` (no separator): split on whitespace runs,
dropping empty tokens.  The accumulator holds the current token reversed. -/
def pySplitAux : List Char → List Char → List String
  | [], acc => if acc.isEmpty then [] else [⟨acc.reverse⟩]
  | c :: rest, acc =>
    if isPySpace c then
      if acc.isEmpty then pySplitAux rest []
      else ⟨acc.reverse⟩ :: pySplitAux rest []
    else pySplitAux rest (c :: acc)

/-- Python `text.split()`. -/
def pySplit (s : String) : List String :=
  pySplitAux s.data []

/-- Number of maximal runs of `[.!?]` in the list. -/
def punctRunsAux : Bool → List Char → Nat
  | _, [] => 0
  | inRun, c :: rest =>
    if isSentencePunct c then
      (if inRun then 0 else 1) + punctRunsAux true rest
    else punctRunsAux false rest

/-- `len(re.split(r'[.!?]+', text))`: the segment count is one more than
the number of maximal runs of sentence punctuation. -/
def sentenceSegments (s : String) : Nat :=
  punctRunsAux false s.data + 1

/-- `np.mean` of a list of rationals; `none` models the `NaN` produced on
an empty list. -/
def npMean (l : List ℚ) : Option ℚ :=
  if l.isEmpty then none else some (l.sum / (l.length : ℚ))

/-- The feature vector built by `extract_features`; the field order is the
order of the `np.array` literal in the source.  `avg_word_length` is
`Option ℚ`, with `none` modelling the `NaN` of `np.mean([])`. -/
structure FeatureVector where
  word_count : Nat
  char_count : Nat
  sentence_count : Nat
  avg_word_length : Option ℚ
  vocabulary_richness : ℚ
  punctuation_density : ℚ
deriving DecidableEq

/-- `PlagiarismDetector.extract_features` (src/plagiarism_detector.py
lines 42-61). -/
def extract_features (text : String) : FeatureVector :=
  let words := pySplit text
  { word_count := words.length
    char_count := text.length
    sentence_count := sentenceSegments text
    avg_word_length := npMean (words.map (fun w => (w.length : ℚ)))
    vocabulary_richness :=
      if 0 < words.length then (words.dedup.length : ℚ) / (words.length : ℚ) else 0
    punctuation_density :=
      if 0 < text.length then
        ((text.data.filter isKeptPunct).length : ℚ) / (text.length : ℚ)
      else 0 }

/-- Oracles for the two scikit-learn calls reached from the detector.
These are external library calls, not code of this repository.

* `svmPredictProba1 f = some p` models
  `svm_model.predict_proba([f])[0][1] == p`; `none` models a raised
  exception (caught at the call site).
* `tfidfCosineRow ts = some row` models the composite
  `m = vectorizer.fit_transform(ts);
   cosine_similarity(m[-1:], m[:-1])[0] == row` — the cosine of the last
  text's tf-idf vector against each earlier one, under the weighting
  model fit jointly on `ts`; `none` models a raised exception (e.g. the
  vocabulary is empty after stop-word removal).  `fit_transform` refits
  from the constructor configuration and its result does not depend on
  any previously fitted state, so the oracle is a function of the text
  list alone. -/
structure Oracles where
  svmPredictProba1 : FeatureVector → Option ℚ
  tfidfCosineRow : List String → Option (List ℚ)

/-- The dictionary pickled by `save_model`: the classifier, the
vectorizer (configuration plus fitted state) and the reference corpus. -/
structure Artifact where
  oracles : Oracles
  fitted : Option (List String)
  reference_texts : List String

/-- The mutable state of a `PlagiarismDetector` instance, plus the
contents of the model file at `model_path` (`none` = file absent). -/
structure DetState where
  oracles : Oracles
  fitted : Option (List String)
  reference_texts : List String
  persisted : Option Artifact

/-- `PlagiarismDetector.save_model` (lines 128-137): pickle
`{svm_model, vectorizer, reference_texts}` to the model file. -/
def save_model (st : DetState) : DetState :=
  { st with persisted := some ⟨st.oracles, st.fitted, st.reference_texts⟩ }

/-- `PlagiarismDetector.load_model` (lines 139-149): unpickle the model
file into the three fields, or return `false` when the file is absent. -/
def load_model (st : DetState) : Bool × DetState :=
  match st.persisted with
  | none => (false, st)
  | some a =>
    (true, { st with oracles := a.oracles, fitted := a.fitted,
                     reference_texts := a.reference_texts })

/-- `PlagiarismDetector.calculate_similarity_score` (lines 157-177).
Returns the score and the new state (`fit_transform` mutates the
vectorizer's fitted attributes).  `List.max?` models `np.max`, which
raises on an empty array — caught by the surrounding `except`. -/
def calculate_similarity_score (st : DetState) (text : String) : ℚ × DetState :=
  if st.reference_texts = [] then (0, st)
  else
    let processed := preprocess_text text
    let all_texts := st.reference_texts ++ [processed]
    match st.oracles.tfidfCosineRow all_texts with
    | none => (0, st)
    | some row =>
      let st' := { st with fitted := some all_texts }
      match row.max? with
      | none => (0, st')
      | some m => (m, st')

/-- The defaulted classifier probability used by `detect_plagiarism`
(lines 190-193): `predict_proba` on the features of the preprocessed
text, with an exception replaced by `0.0`. -/
def svmProbOf (st : DetState) (text : String) : ℚ :=
  match st.oracles.svmPredictProba1 (extract_features (preprocess_text text)) with
  | none => 0
  | some v => v

/-- `PlagiarismDetector.detect_plagiarism` (lines 179-201): the main
scoring entry point. -/
def detect_plagiarism (st : DetState) (text : String) : ℚ × DetState :=
  if text = "" ∨ (pyStrip text).length < 10 then (0, st)
  else
    let p := svmProbOf st text
    let s := (calculate_similarity_score st text).1
    let st' := (calculate_similarity_score st text).2
    (min ((p * (6/10) + s * (4/10)) * 100) 100, st')

/-- The risk bucketing of `get_detailed_report` (lines 213-224):
`(risk_level, risk_color)` from the plagiarism score. -/
def riskOf (score : ℚ) : String × String :=
  if score < 15 then ("Low", "green")
  else if score < 30 then ("Medium", "yellow")
  else if score < 50 then ("High", "orange")
  else ("Very High", "red")

/-- `PlagiarismDetector.get_recommendations` (lines 240-263). -/
def get_recommendations (score : ℚ) : List String :=
  if score < 15 then
    ["Content appears to be original.", "Good academic integrity maintained."]
  else if score < 30 then
    ["Some similarities detected with existing content.",
     "Review citations and references.",
     "Consider paraphrasing similar sections."]
  else if score < 50 then
    ["Significant similarities found.",
     "Manual review recommended.",
     "Check for proper citations and quotations.",
     "Consider rewriting similar sections."]
  else
    ["High plagiarism risk detected.",
     "Immediate manual review required.",
     "Substantial rewriting may be necessary.",
     "Verify all sources are properly cited."]

/-- Round to nearest integer, ties to even: the rounding of Python's
built-in `round` (modelled on the exact rational value). -/
def roundHalfEven (q : ℚ) : ℤ :=
  if q - ⌊q⌋ < 1/2 then ⌊q⌋
  else if 1/2 < q - ⌊q⌋ then ⌊q⌋ + 1
  else if 2 ∣ ⌊q⌋ then ⌊q⌋ else ⌊q⌋ + 1

/-- Python `round(q, 2)` on the exact rational value. -/
def pyRound2 (q : ℚ) : ℚ :=
  (roundHalfEven (q * 100) : ℚ) / 100

/-- The dictionary returned by `get_detailed_report`; `timestamp` is the
caller-visible wall-clock string. -/
structure Report where
  plagiarism_score : ℚ
  similarity_score : ℚ
  risk_level : String
  risk_color : String
  word_count : Nat
  character_count : Nat
  unique_words : Nat
  recommendations : List String
  timestamp : String
deriving DecidableEq

/-- `PlagiarismDetector.get_detailed_report` (lines 203-238).  `now` is
the `datetime.now().strftime(...)` string, passed in explicitly. -/
def get_detailed_report (st : DetState) (text now : String) : Report × DetState :=
  let processed := preprocess_text text
  let plagiarism_score := (detect_plagiarism st text).1
  let st1 := (detect_plagiarism st text).2
  let similarity_score := (calculate_similarity_score st1 text).1
  let st2 := (calculate_similarity_score st1 text).2
  let risk := riskOf plagiarism_score
  ({ plagiarism_score := pyRound2 plagiarism_score
     similarity_score := pyRound2 (similarity_score * 100)
     risk_level := risk.1
     risk_color := risk.2
     word_count := (pySplit processed).length
     character_count := processed.length
     unique_words := ((pySplit processed).dedup).length
     recommendations := get_recommendations plagiarism_score
     timestamp := now }, st2)

/-- `PlagiarismDetector.add_reference_text` (lines 265-270): normalize,
append if absent, persist. -/
def add_reference_text (st : DetState) (text : String) : DetState :=
  let processed := preprocess_text text
  if processed ∈ st.reference_texts then st
  else save_model { st with reference_texts := st.reference_texts ++ [processed] }

/-- The scikit-learn guarantee that `predict_proba` yields a probability:
every defined classifier-oracle output is in `[0,1]`. -/
def SvmInRange (o : Oracles) : Prop :=
  ∀ f v, o.svmPredictProba1 f = some v → 0 ≤ v ∧ v ≤ 1

/-- The scikit-learn guarantee that cosine similarity of (nonnegative)
tf-idf vectors lies in `[0,1]`: every entry of a defined similarity-row
oracle output is in `[0,1]`. -/
def CosineInRange (o : Oracles) : Prop :=
  ∀ ts row, o.tfidfCosineRow ts = some row → ∀ v ∈ row, 0 ≤ v ∧ v ≤ 1

/-- `clamp(x, lo, hi)` as the specification words it. -/
def specClamp (x lo hi : ℚ) : ℚ :=
  max lo (min x hi)

/-! ### Helper lemmas about characters and preprocessing -/

theorem toNat_charOfNat_of_lt {n : Nat} (h : n < 55296) : (Char.ofNat n).toNat = n := by
  have hv : n.isValidChar := Or.inl h
  rw [Char.ofNat, dif_pos hv]
  simp [Char.ofNatAux, Char.toNat, UInt32.toNat]

theorem toNat_toLower (c : Char) :
    (Char.toLower c).toNat =
      if 65 ≤ c.toNat ∧ c.toNat ≤ 90 then c.toNat + 32 else c.toNat := by
  unfold Char.toLower
  split
  next h =>
    rw [if_pos h]
    exact toNat_charOfNat_of_lt (by omega)
  next h =>
    rw [if_neg h]

theorem isKeptChar_toLower {c : Char} (h : isKeptChar c = true) :
    isKeptChar (Char.toLower c) = true := by
  have ht := toNat_toLower c
  simp only [isKeptChar, isWordChar, isPySpace, isKeptPunct, Bool.or_eq_true,
    decide_eq_true_eq] at h ⊢
  rw [ht]
  split_ifs with hc <;> omega

theorem toLower_not_upper (c : Char) :
    ¬ (65 ≤ (Char.toLower c).toNat ∧ (Char.toLower c).toNat ≤ 90) := by
  have ht := toNat_toLower c
  rw [ht]
  split_ifs with hc <;> omega

theorem dropWhile_of_head_false {p : Char → Bool} {l : List Char}
    (h : ∀ c ∈ l, p c = false) : l.dropWhile p = l := by
  cases l with
  | nil => rfl
  | cons c rest =>
    rw [List.dropWhile_cons]
    simp [h c (List.mem_cons_self _ _)]

theorem pyStripList_of_no_space {cs : List Char}
    (h : ∀ c ∈ cs, isPySpace c = false) : pyStripList cs = cs := by
  unfold pyStripList
  rw [dropWhile_of_head_false h]
  rw [dropWhile_of_head_false (fun c hc => h c (List.mem_reverse.mp hc))]
  exact List.reverse_reverse cs

theorem collapseWSAux_of_no_space {l : List Char}
    (h : ∀ c ∈ l, isPySpace c = false) : ∀ b, collapseWSAux b l = l := by
  induction l with
  | nil => intro b; rfl
  | cons c rest ih =>
    intro b
    simp only [collapseWSAux]
    rw [h c (List.mem_cons_self _ _)]
    simp only [Bool.false_eq_true, if_false]
    rw [ih (fun d hd => h d (List.mem_cons_of_mem _ hd)) false]

theorem preprocess_of_all_removed {s : String}
    (h : ∀ c ∈ s.data, isKeptChar c = false) : preprocess_text s = "" := by
  have hns : ∀ c ∈ s.data, isPySpace c = false := by
    intro c hc
    have hk := h c hc
    simp only [isKeptChar, Bool.or_eq_false_iff] at hk
    exact hk.1.2
  show (⟨preprocessList s.data⟩ : String) = ""
  unfold preprocessList
  rw [pyStripList_of_no_space hns, collapseWSAux_of_no_space hns false]
  rw [List.filter_eq_nil_iff.mpr (fun c hc => by simp [h c hc])]
  rfl

/-! ### Concrete states used by the witness theorems -/

/-- A concrete detector state: well-behaved oracles and a one-text corpus. -/
def oracles0 : Oracles :=
  { svmPredictProba1 := fun _ => some (1/2)
    tfidfCosineRow := fun _ => some [3/10] }

def st0 : DetState :=
  { oracles := oracles0, fitted := none
    reference_texts := ["machine learning is great"], persisted := none }

/-- A concrete detector state whose oracles always raise. -/
def oraclesFail : Oracles :=
  { svmPredictProba1 := fun _ => none
    tfidfCosineRow := fun _ => none }

def stFail : DetState :=
  { oracles := oraclesFail, fitted := none
    reference_texts := ["machine learning is great"], persisted := none }

/-! ### C5: feature extraction -/

/-- C5: `extract_features` returns the six features in the fixed order
(word_count, char_count, sentence_count, avg_word_length,
vocabulary_richness, punctuation_density); when `word_count = 0`,
`avg_word_length` is NaN (modelled as `none`) while
`vocabulary_richness` is 0, and when `char_count = 0`,
`punctuation_density` is 0. -/
theorem C5_extract_features_fields (t : String) :
    extract_features t =
      { word_count := (pySplit t).length
        char_count := t.length
        sentence_count := sentenceSegments t
        avg_word_length := npMean ((pySplit t).map (fun w => (w.length : ℚ)))
        vocabulary_richness :=
          if 0 < (pySplit t).length then
            (((pySplit t).dedup).length : ℚ) / ((pySplit t).length : ℚ)
          else 0
        punctuation_density :=
          if 0 < t.length then
            ((t.data.filter isKeptPunct).length : ℚ) / (t.length : ℚ)
          else 0 } ∧
    ((extract_features t).word_count = 0 →
      (extract_features t).avg_word_length = none ∧
      (extract_features t).vocabulary_richness = 0) ∧
    ((extract_features t).char_count = 0 →
      (extract_features t).punctuation_density = 0) := by
  refine ⟨rfl, ?_, ?_⟩
  · intro h
    have hw : pySplit t = [] := by
      have hl : (pySplit t).length = 0 := h
      exact List.length_eq_zero.mp hl
    constructor
    · show npMean ((pySplit t).map (fun w => (w.length : ℚ))) = none
      rw [hw]
      rfl
    · show (if 0 < (pySplit t).length then
          (((pySplit t).dedup).length : ℚ) / ((pySplit t).length : ℚ) else 0) = 0
      rw [hw]
      rfl
  · intro h
    show (if 0 < t.length then
        ((t.data.filter isKeptPunct).length : ℚ) / (t.length : ℚ) else 0) = 0
    have hl : t.length = 0 := h
    rw [hl]
    rfl

theorem C5_extract_features_fields_witness :
    (extract_features "").avg_word_length = none ∧
    (extract_features "").vocabulary_richness = 0 ∧
    (extract_features "").punctuation_density = 0 :=
  ⟨((C5_extract_features_fields "").2.1 (by decide)).1,
   ((C5_extract_features_fields "").2.1 (by decide)).2,
   (C5_extract_features_fields "").2.2 (by decide)⟩

/-! ### C6: the text normalizer -/

/-- C6 counterexample: the claim says `normalize` output has no
leading/trailing whitespace and no run of two or more consecutive
whitespace characters.  But the character-deletion step runs after
whitespace collapsing, so `preprocess_text "@ a" = " a"` (leading space)
and `preprocess_text "a @ b" = "a  b"` (two consecutive spaces). -/
theorem C6_preprocess_counterexample :
    preprocess_text "@ a" = " a" ∧
    (preprocess_text "@ a").data.head? = some ' ' ∧
    isPySpace ' ' = true ∧
    preprocess_text "a @ b" = "a  b" := by
  decide

/-- C6 amended: `preprocess_text` is a deterministic total function whose
output is lower-case (contains no ASCII uppercase letter) and contains
only word characters, whitespace and the punctuation set `. , ! ? ; :`,
and `preprocess_text "" = ""`.  (The no-leading/trailing-whitespace and
no-consecutive-whitespace clauses of the claim are dropped: deleting a
disallowed character adjacent to spaces can leave such whitespace.) -/
theorem C6_preprocess_amended :
    preprocess_text "" = "" ∧
    ∀ (s : String), ∀ c ∈ (preprocess_text s).data,
      isKeptChar c = true ∧ ¬ (65 ≤ c.toNat ∧ c.toNat ≤ 90) := by
  refine ⟨rfl, ?_⟩
  intro s c hc
  have hdata : (preprocess_text s).data = preprocessList s.data := rfl
  rw [hdata] at hc
  unfold preprocessList at hc
  rcases List.mem_map.mp hc with ⟨d, hd, rfl⟩
  exact ⟨isKeptChar_toLower (List.mem_filter.mp hd).2, toLower_not_upper d⟩

theorem C6_preprocess_amended_witness :
    preprocess_text "" = "" ∧
    (isKeptChar 'a' = true ∧ ¬ (65 ≤ ('a' : Char).toNat ∧ ('a' : Char).toNat ≤ 90)) :=
  ⟨C6_preprocess_amended.1, C6_preprocess_amended.2 "Ab!" 'a' (by decide)⟩

/-! ### C10: report statistics are computed on the normalized text -/

/-- C10: the report fields `word_count`, `character_count` and
`unique_words` are the token count, string length and distinct-token
count of the *normalized* text; an input consisting only of characters
removed by normalization yields `word_count = 0` and
`character_count = 0`. -/
theorem C10_report_counts (st : DetState) (t now : String) :
    (get_detailed_report st t now).1.word_count =
      (pySplit (preprocess_text t)).length ∧
    (get_detailed_report st t now).1.character_count =
      (preprocess_text t).length ∧
    (get_detailed_report st t now).1.unique_words =
      ((pySplit (preprocess_text t)).dedup).length ∧
    ((∀ c ∈ t.data, isKeptChar c = false) →
      (get_detailed_report st t now).1.word_count = 0 ∧
      (get_detailed_report st t now).1.character_count = 0) := by
  refine ⟨rfl, rfl, rfl, ?_⟩
  intro h
  have hp := preprocess_of_all_removed h
  constructor
  · show (pySplit (preprocess_text t)).length = 0
    rw [hp]
    rfl
  · show (preprocess_text t).length = 0
    rw [hp]
    rfl

theorem C10_report_counts_witness :
    (get_detailed_report st0 "@@@@@@@@@@" "2024-01-01 00:00:00").1.word_count = 0 ∧
    (get_detailed_report st0 "@@@@@@@@@@" "2024-01-01 00:00:00").1.character_count = 0 :=
  (C10_report_counts st0 "@@@@@@@@@@" "2024-01-01 00:00:00").2.2.2 (by decide)

/-! ### Similarity score lemmas and C4 -/

theorem calcSim_max_spec {row : List ℚ} {m : ℚ} (hm : row.max? = some m) :
    m ∈ row ∧ ∀ v ∈ row, v ≤ m :=
  ⟨List.max?_mem (fun a b => max_choice a b) hm,
   (List.max?_le_iff (fun _ _ _ => max_le_iff) hm).1 le_rfl⟩

theorem calcSim_bounds (st : DetState) (t : String) (hc : CosineInRange st.oracles) :
    0 ≤ (calculate_similarity_score st t).1 ∧
    (calculate_similarity_score st t).1 ≤ 1 := by
  by_cases h : st.reference_texts = []
  · simp [calculate_similarity_score, h]
  · cases ho : st.oracles.tfidfCosineRow (st.reference_texts ++ [preprocess_text t]) with
    | none => simp [calculate_similarity_score, h, ho]
    | some row =>
      cases hm : row.max? with
      | none => simp [calculate_similarity_score, h, ho, hm]
      | some m =>
        have hmem : m ∈ row := (calcSim_max_spec hm).1
        have hb := hc _ _ ho m hmem
        simpa [calculate_similarity_score, h, ho, hm] using hb

/-- C4: the similarity score is in `[0,1]`; it is exactly 0 whenever the
reference corpus is empty or vectorization fails, and otherwise it is the
maximum cosine similarity between the candidate's vector and any single
reference vector under the weighting model fit jointly on
`corpus ++ [candidate]` (i.e. it is an element of the cosine row that
bounds every element of the row). -/
theorem C4_similarity_contract (st : DetState) (t : String)
    (hc : CosineInRange st.oracles) :
    (0 ≤ (calculate_similarity_score st t).1 ∧
     (calculate_similarity_score st t).1 ≤ 1) ∧
    (st.reference_texts = [] → (calculate_similarity_score st t).1 = 0) ∧
    (st.oracles.tfidfCosineRow (st.reference_texts ++ [preprocess_text t]) = none →
      (calculate_similarity_score st t).1 = 0) ∧
    (∀ row, st.reference_texts ≠ [] →
      st.oracles.tfidfCosineRow (st.reference_texts ++ [preprocess_text t]) = some row →
      row ≠ [] →
      (calculate_similarity_score st t).1 ∈ row ∧
      ∀ v ∈ row, v ≤ (calculate_similarity_score st t).1) := by
  refine ⟨calcSim_bounds st t hc, ?_, ?_, ?_⟩
  · intro h
    simp [calculate_similarity_score, h]
  · intro ho
    by_cases h : st.reference_texts = []
    · simp [calculate_similarity_score, h]
    · simp [calculate_similarity_score, h, ho]
  · intro row h ho hrow
    cases hm : row.max? with
    | none => exact absurd (List.max?_eq_none_iff.mp hm) hrow
    | some m =>
      have hval : (calculate_similarity_score st t).1 = m := by
        simp [calculate_similarity_score, h, ho, hm]
      rw [hval]
      exact calcSim_max_spec hm

theorem C4_similarity_contract_witness :
    (0 ≤ (calculate_similarity_score st0 "a sample candidate text").1 ∧
     (calculate_similarity_score st0 "a sample candidate text").1 ≤ 1) ∧
    (calculate_similarity_score st0 "a sample candidate text").1 ∈ ([3/10] : List ℚ) := by
  have h := C4_similarity_contract st0 "a sample candidate text"
    (by intro ts row hr v hv
        simp only [st0, oracles0] at hr
        cases hr
        simp only [List.mem_singleton] at hv
        subst hv
        norm_num)
  refine ⟨h.1, ?_⟩
  exact (h.2.2.2 [3/10] (by decide) rfl (by decide)).1

/-! ### C1: the fused score -/

theorem svmProbOf_bounds (st : DetState) (t : String) (hp : SvmInRange st.oracles) :
    0 ≤ svmProbOf st t ∧ svmProbOf st t ≤ 1 := by
  unfold svmProbOf
  cases ho : st.oracles.svmPredictProba1 (extract_features (preprocess_text t)) with
  | none => norm_num
  | some v => exact hp _ _ ho

/-- C1: `detect_plagiarism` always returns a value in `[0,100]`; if the
text is empty or its stripped length is below 10 it returns exactly 0,
and otherwise it returns `clamp(100 * (0.6*p + 0.4*s), 0, 100)` where `p`
is the (defaulted) classifier probability and `s` the corpus similarity.
The range hypotheses are the scikit-learn guarantees on the two oracles. -/
theorem C1_score_contract (st : DetState) (t : String)
    (hp : SvmInRange st.oracles) (hc : CosineInRange st.oracles) :
    (0 ≤ (detect_plagiarism st t).1 ∧ (detect_plagiarism st t).1 ≤ 100) ∧
    ((t = "" ∨ (pyStrip t).length < 10) → (detect_plagiarism st t).1 = 0) ∧
    (¬ (t = "" ∨ (pyStrip t).length < 10) →
      (detect_plagiarism st t).1 =
        specClamp (100 * ((6/10) * svmProbOf st t +
          (4/10) * (calculate_similarity_score st t).1)) 0 100) := by
  have hpb := svmProbOf_bounds st t hp
  have hsb := calcSim_bounds st t hc
  by_cases hg : t = "" ∨ (pyStrip t).length < 10
  · refine ⟨?_, fun _ => ?_, fun hng => absurd hg hng⟩ <;>
      simp [detect_plagiarism, hg]
  · have hval : (detect_plagiarism st t).1 =
        min ((svmProbOf st t * (6/10) +
          (calculate_similarity_score st t).1 * (4/10)) * 100) 100 := by
      simp [detect_plagiarism, hg]
    have hnn : (0:ℚ) ≤ (svmProbOf st t * (6/10) +
        (calculate_similarity_score st t).1 * (4/10)) * 100 := by
      nlinarith [hpb.1, hsb.1]
    refine ⟨⟨?_, ?_⟩, fun hg2 => absurd hg2 hg, fun _ => ?_⟩
    · rw [hval]
      exact le_min hnn (by norm_num)
    · rw [hval]
      exact min_le_right _ _
    · rw [hval]
      simp only [specClamp]
      have hXX : 100 * ((6/10) * svmProbOf st t +
          (4/10) * (calculate_similarity_score st t).1) =
          (svmProbOf st t * (6/10) +
            (calculate_similarity_score st t).1 * (4/10)) * 100 := by ring
      rw [hXX, max_eq_right (le_min hnn (by norm_num))]

theorem C1_score_contract_witness :
    (0 ≤ (detect_plagiarism st0 "this is a long enough sample text").1 ∧
     (detect_plagiarism st0 "this is a long enough sample text").1 ≤ 100) ∧
    (detect_plagiarism st0 "this is a long enough sample text").1 =
      specClamp (100 * ((6/10) * svmProbOf st0 "this is a long enough sample text" +
        (4/10) * (calculate_similarity_score st0 "this is a long enough sample text").1))
        0 100 := by
  have h := C1_score_contract st0 "this is a long enough sample text"
    (by intro f v hv
        simp only [st0, oracles0] at hv
        cases hv
        norm_num)
    (by intro ts row hr v hv
        simp only [st0, oracles0] at hr
        cases hr
        simp only [List.mem_singleton] at hv
        subst hv
        norm_num)
  exact ⟨h.1, h.2.2 (by decide)⟩

/-! ### C2: degenerate inputs -/

/-- A high-probability classifier oracle over an empty corpus: the
counterexample state for C2. -/
def oraclesHigh : Oracles :=
  { svmPredictProba1 := fun _ => some 1
    tfidfCosineRow := fun _ => none }

def stEmptyCorpus : DetState :=
  { oracles := oraclesHigh, fitted := none
    reference_texts := [], persisted := none }

/-- C2 counterexample: an empty reference corpus is one of the claim's
"degenerate inputs", yet with a classifier probability of 1 (in range)
the fused score is 60 and the report's risk level is "Very High", not
"Low". -/
theorem C2_counterexample :
    stEmptyCorpus.reference_texts = [] ∧
    SvmInRange stEmptyCorpus.oracles ∧
    CosineInRange stEmptyCorpus.oracles ∧
    (get_detailed_report stEmptyCorpus
      "a completely original essay about gardens" "2024-01-01 00:00:00").1.risk_level =
      "Very High" ∧
    (get_detailed_report stEmptyCorpus
      "a completely original essay about gardens" "2024-01-01 00:00:00").1.risk_level ≠
      "Low" := by
  have hguard : ¬("a completely original essay about gardens" = "" ∨
      (pyStrip "a completely original essay about gardens").length < 10) := by decide
  have hsim : (calculate_similarity_score stEmptyCorpus
      "a completely original essay about gardens").1 = 0 := by
    simp [calculate_similarity_score, stEmptyCorpus]
  have hprob : svmProbOf stEmptyCorpus "a completely original essay about gardens" = 1 := rfl
  have hscore : (detect_plagiarism stEmptyCorpus
      "a completely original essay about gardens").1 = 60 := by
    simp only [detect_plagiarism, hguard, if_false]
    rw [hprob, hsim]
    norm_num
  have hrl : (get_detailed_report stEmptyCorpus
      "a completely original essay about gardens" "2024-01-01 00:00:00").1.risk_level =
      (riskOf (detect_plagiarism stEmptyCorpus
        "a completely original essay about gardens").1).1 := rfl
  have hvh : (get_detailed_report stEmptyCorpus
      "a completely original essay about gardens" "2024-01-01 00:00:00").1.risk_level =
      "Very High" := by
    rw [hrl, hscore]
    norm_num [riskOf]
  refine ⟨rfl, ?_, ?_, hvh, ?_⟩
  · intro f v h
    simp only [stEmptyCorpus, oraclesHigh] at h
    cases h
    norm_num
  · intro ts row h
    simp only [stEmptyCorpus, oraclesHigh] at h
    cases h
  · rw [hvh]
    decide

/-- C2 amended: scoring and reporting are total functions of the state
and the input (no exception escapes: both oracle failures are defaulted
to a 0 contribution); empty or near-empty text yields score exactly 0
and a "Low" risk report; an empty corpus or a vectorization failure
yields a 0 *similarity component*.  (The original claim's assertion that
an empty corpus or vocabulary collapse also forces a "Low" report is
dropped: the classifier component alone can reach any bucket.) -/
theorem C2_amended_degenerate (st : DetState) (t now : String) :
    ((t = "" ∨ (pyStrip t).length < 10) →
      (detect_plagiarism st t).1 = 0 ∧
      (get_detailed_report st t now).1.risk_level = "Low") ∧
    (st.reference_texts = [] → (calculate_similarity_score st t).1 = 0) ∧
    (st.oracles.tfidfCosineRow (st.reference_texts ++ [preprocess_text t]) = none →
      (calculate_similarity_score st t).1 = 0) ∧
    (st.oracles.svmPredictProba1 (extract_features (preprocess_text t)) = none →
      svmProbOf st t = 0) := by
  refine ⟨?_, ?_, ?_, ?_⟩
  · intro hg
    have hd0 : (detect_plagiarism st t).1 = 0 := by simp [detect_plagiarism, hg]
    refine ⟨hd0, ?_⟩
    have hrl : (get_detailed_report st t now).1.risk_level =
        (riskOf (detect_plagiarism st t).1).1 := rfl
    rw [hrl, hd0]
    norm_num [riskOf]
  · intro h
    simp [calculate_similarity_score, h]
  · intro ho
    by_cases h : st.reference_texts = []
    · simp [calculate_similarity_score, h]
    · simp [calculate_similarity_score, h, ho]
  · intro ho
    simp [svmProbOf, ho]

theorem C2_amended_degenerate_witness :
    ((detect_plagiarism st0 "short").1 = 0 ∧
     (get_detailed_report st0 "short" "2024-01-01 00:00:00").1.risk_level = "Low") ∧
    (calculate_similarity_score stEmptyCorpus "some candidate text").1 = 0 ∧
    (calculate_similarity_score stFail "some candidate text").1 = 0 ∧
    svmProbOf stFail "some candidate text" = 0 :=
  ⟨(C2_amended_degenerate st0 "short" "2024-01-01 00:00:00").1 (by decide),
   (C2_amended_degenerate stEmptyCorpus "some candidate text" "x").2.1 rfl,
   (C2_amended_degenerate stFail "some candidate text" "x").2.2.1 rfl,
   (C2_amended_degenerate stFail "some candidate text" "x").2.2.2 rfl⟩

/-! ### C3: risk buckets -/

/-- Ordinal rank of a risk level, for stating monotonicity. -/
def riskRank (s : String) : Nat :=
  if s = "Low" then 0 else if s = "Medium" then 1 else if s = "High" then 2 else 3

theorem riskOf_rank (x : ℚ) :
    riskRank (riskOf x).1 =
      if x < 15 then 0 else if x < 30 then 1 else if x < 50 then 2 else 3 := by
  unfold riskOf
  split_ifs <;> rfl

/-- C3: the report's `risk_level` is determined solely by the fused score
via the fixed thresholds — "Low" below 15, "Medium" on `[15,30)`, "High"
on `[30,50)`, "Very High" from 50 up — and the bucket rank is a
non-decreasing function of the score. -/
theorem C3_risk_buckets (st : DetState) (t now : String) :
    (get_detailed_report st t now).1.risk_level =
      (riskOf (detect_plagiarism st t).1).1 ∧
    (∀ x : ℚ,
      (x < 15 → (riskOf x).1 = "Low") ∧
      (15 ≤ x → x < 30 → (riskOf x).1 = "Medium") ∧
      (30 ≤ x → x < 50 → (riskOf x).1 = "High") ∧
      (50 ≤ x → (riskOf x).1 = "Very High")) ∧
    (∀ x y : ℚ, x ≤ y → riskRank (riskOf x).1 ≤ riskRank (riskOf y).1) := by
  refine ⟨rfl, ?_, ?_⟩
  · intro x
    refine ⟨fun h => ?_, fun h1 h2 => ?_, fun h1 h2 => ?_, fun h => ?_⟩
    · simp [riskOf, h]
    · simp [riskOf, h2, not_lt.mpr h1]
    · have h15 : ¬ x < 15 := by linarith
      have h30 : ¬ x < 30 := by linarith
      simp [riskOf, h15, h30, h2]
    · have h15 : ¬ x < 15 := by linarith
      have h30 : ¬ x < 30 := by linarith
      have h50 : ¬ x < 50 := by linarith
      simp [riskOf, h15, h30, h50]
  · intro x y hxy
    rw [riskOf_rank, riskOf_rank]
    split_ifs <;> first | omega | (exfalso; linarith)

theorem C3_risk_buckets_witness :
    (get_detailed_report st0 "this is a long enough sample text" "ts").1.risk_level =
      (riskOf (detect_plagiarism st0 "this is a long enough sample text").1).1 ∧
    (riskOf (10 : ℚ)).1 = "Low" ∧ (riskOf (20 : ℚ)).1 = "Medium" ∧
    (riskOf (40 : ℚ)).1 = "High" ∧ (riskOf (60 : ℚ)).1 = "Very High" ∧
    riskRank (riskOf (10 : ℚ)).1 ≤ riskRank (riskOf (60 : ℚ)).1 := by
  have h := C3_risk_buckets st0 "this is a long enough sample text" "ts"
  exact ⟨h.1, (h.2.1 10).1 (by norm_num),
    (h.2.1 20).2.1 (by norm_num) (by norm_num),
    (h.2.1 40).2.2.1 (by norm_num) (by norm_num),
    (h.2.1 60).2.2.2 (by norm_num),
    h.2.2 10 60 (by norm_num)⟩

/-! ### State-preservation lemmas -/

theorem calcSim_state (st : DetState) (t : String) :
    ((calculate_similarity_score st t).2).oracles = st.oracles ∧
    ((calculate_similarity_score st t).2).reference_texts = st.reference_texts ∧
    ((calculate_similarity_score st t).2).persisted = st.persisted := by
  by_cases h : st.reference_texts = []
  · simp [calculate_similarity_score, h]
  · cases ho : st.oracles.tfidfCosineRow (st.reference_texts ++ [preprocess_text t]) with
    | none => simp [calculate_similarity_score, h, ho]
    | some row =>
      cases hm : row.max? with
      | none => simp [calculate_similarity_score, h, ho, hm]
      | some m => simp [calculate_similarity_score, h, ho, hm]

theorem detect_state (st : DetState) (t : String) :
    ((detect_plagiarism st t).2).oracles = st.oracles ∧
    ((detect_plagiarism st t).2).reference_texts = st.reference_texts ∧
    ((detect_plagiarism st t).2).persisted = st.persisted := by
  by_cases hg : t = "" ∨ (pyStrip t).length < 10
  · simp [detect_plagiarism, hg]
  · have hs := calcSim_state st t
    simpa [detect_plagiarism, hg] using hs

theorem calcSim_val_congr (st st' : DetState) (t : String)
    (ho : st.oracles = st'.oracles) (hr : st.reference_texts = st'.reference_texts) :
    (calculate_similarity_score st t).1 = (calculate_similarity_score st' t).1 := by
  by_cases h : st.reference_texts = []
  · simp [calculate_similarity_score, h, hr ▸ h]
  · have h' : ¬ st'.reference_texts = [] := hr ▸ h
    cases hrow : st'.oracles.tfidfCosineRow (st'.reference_texts ++ [preprocess_text t]) with
    | none =>
      have hrow2 : st.oracles.tfidfCosineRow (st.reference_texts ++ [preprocess_text t]) = none := by
        rw [ho, hr]; exact hrow
      simp [calculate_similarity_score, h, h', hrow, hrow2]
    | some row =>
      have hrow2 : st.oracles.tfidfCosineRow (st.reference_texts ++ [preprocess_text t]) =
          some row := by
        rw [ho, hr]; exact hrow
      cases hm : row.max? with
      | none => simp [calculate_similarity_score, h, h', hrow, hrow2, hm]
      | some m => simp [calculate_similarity_score, h, h', hrow, hrow2, hm]

theorem detect_val_congr (st st' : DetState) (t : String)
    (ho : st.oracles = st'.oracles) (hr : st.reference_texts = st'.reference_texts) :
    (detect_plagiarism st t).1 = (detect_plagiarism st' t).1 := by
  by_cases hg : t = "" ∨ (pyStrip t).length < 10
  · simp [detect_plagiarism, hg]
  · have hsim := calcSim_val_congr st st' t ho hr
    have hsvm : svmProbOf st t = svmProbOf st' t := by
      unfold svmProbOf
      rw [ho]
    simp only [detect_plagiarism, hg, if_false]
    rw [hsim, hsvm]

/-! ### C8: determinism / idempotence of scoring -/

/-- C8: two successive calls of `detect_plagiarism` on the same text with
no intervening `add_reference_text` or training return identical scores
(the first call only refits the vectorizer, which does not influence
scoring), and more generally the score depends only on the classifier,
the vectorizer configuration (the oracles) and the reference corpus. -/
theorem C8_score_idempotent (st : DetState) (t : String) :
    (detect_plagiarism (detect_plagiarism st t).2 t).1 = (detect_plagiarism st t).1 ∧
    (∀ st' : DetState, st.oracles = st'.oracles →
      st.reference_texts = st'.reference_texts →
      (detect_plagiarism st t).1 = (detect_plagiarism st' t).1) := by
  constructor
  · exact detect_val_congr _ _ t (detect_state st t).1 (detect_state st t).2.1
  · intro st' ho hr
    exact detect_val_congr st st' t ho hr

theorem C8_score_idempotent_witness :
    (detect_plagiarism (detect_plagiarism st0 "this is a long enough sample text").2
      "this is a long enough sample text").1 =
      (detect_plagiarism st0 "this is a long enough sample text").1 ∧
    (detect_plagiarism st0 "this is a long enough sample text").1 =
      (detect_plagiarism st0 "this is a long enough sample text").1 :=
  ⟨(C8_score_idempotent st0 "this is a long enough sample text").1,
   (C8_score_idempotent st0 "this is a long enough sample text").2 st0 rfl rfl⟩

/-! ### C9: save/load round trip -/

/-- C9: `load_model` after `save_model` succeeds and restores the
classifier, the vectorizer and the reference corpus, so the score of any
probe text computed with the reloaded state equals the score computed
with the pre-save in-memory state. -/
theorem C9_save_load_roundtrip (st : DetState) (t : String) :
    (load_model (save_model st)).1 = true ∧
    ((load_model (save_model st)).2).oracles.svmPredictProba1 =
      st.oracles.svmPredictProba1 ∧
    ((load_model (save_model st)).2).oracles.tfidfCosineRow =
      st.oracles.tfidfCosineRow ∧
    ((load_model (save_model st)).2).reference_texts = st.reference_texts ∧
    (detect_plagiarism (load_model (save_model st)).2 t).1 =
      (detect_plagiarism st t).1 := by
  have hld : (load_model (save_model st)).2 =
      { st with persisted := some ⟨st.oracles, st.fitted, st.reference_texts⟩ } := rfl
  refine ⟨rfl, by rw [hld], by rw [hld], by rw [hld], ?_⟩
  exact detect_val_congr _ _ t (by rw [hld]) (by rw [hld])

/-! ### C7: the corpus-mutation contract -/

/-- C7: `add_reference_text` normalizes its input and appends the
normalized form to the corpus exactly when that normalized string is not
already present, then persists the whole artifact; when it is already
present, the in-memory state (corpus and persisted artifact included) is
left entirely unchanged.  The scoring operations, report generation and
`save_model` never change the corpus, and `load_model` only restores the
persisted corpus. -/
theorem C7_add_reference_contract (st : DetState) (t now s2 : String) :
    (preprocess_text t ∉ st.reference_texts →
      (add_reference_text st t).reference_texts =
        st.reference_texts ++ [preprocess_text t] ∧
      (add_reference_text st t).persisted =
        some { oracles := st.oracles, fitted := st.fitted,
               reference_texts := st.reference_texts ++ [preprocess_text t] }) ∧
    (preprocess_text t ∈ st.reference_texts → add_reference_text st t = st) ∧
    ((detect_plagiarism st s2).2.reference_texts = st.reference_texts ∧
     (detect_plagiarism st s2).2.persisted = st.persisted) ∧
    ((calculate_similarity_score st s2).2.reference_texts = st.reference_texts ∧
     (calculate_similarity_score st s2).2.persisted = st.persisted) ∧
    ((get_detailed_report st s2 now).2.reference_texts = st.reference_texts ∧
     (get_detailed_report st s2 now).2.persisted = st.persisted) ∧
    (save_model st).reference_texts = st.reference_texts ∧
    (∀ a, st.persisted = some a →
      (load_model st).2.reference_texts = a.reference_texts) := by
  refine ⟨?_, ?_, ⟨(detect_state st s2).2.1, (detect_state st s2).2.2⟩,
          ⟨(calcSim_state st s2).2.1, (calcSim_state st s2).2.2⟩, ?_, rfl, ?_⟩
  · intro h
    constructor
    · simp [add_reference_text, h, save_model]
    · simp [add_reference_text, h, save_model]
  · intro h
    simp [add_reference_text, h]
  · have h1 := detect_state st s2
    have h2 := calcSim_state (detect_plagiarism st s2).2 s2
    have hrep : (get_detailed_report st s2 now).2 =
        (calculate_similarity_score (detect_plagiarism st s2).2 s2).2 := rfl
    rw [hrep]
    exact ⟨h2.2.1.trans h1.2.1, h2.2.2.trans h1.2.2⟩
  · intro a ha
    simp [load_model, ha]

theorem C7_add_reference_contract_witness :
    (add_reference_text st0 "The quick brown fox jumps!").reference_texts =
      st0.reference_texts ++ [preprocess_text "The quick brown fox jumps!"] ∧
    add_reference_text st0 "Machine LEARNING is great" = st0 ∧
    (detect_plagiarism st0 "an unrelated probe text").2.reference_texts =
      st0.reference_texts := by
  have h1 := C7_add_reference_contract st0 "The quick brown fox jumps!" "ts"
    "an unrelated probe text"
  have h2 := C7_add_reference_contract st0 "Machine LEARNING is great" "ts"
    "an unrelated probe text"
  exact ⟨(h1.1 (by decide)).1, h2.2.1 (by decide), h1.2.2.1.1⟩
